import Mathlib

/-!
Verification of the resilient resource-access core of the `kit` repository
(database, cache, migrator clients) against its natural-language
specification.

The Go source is shallowly embedded: pure control flow becomes Lean
functions, the side effects of the outermost transaction call (begin,
commit, rollback) become an explicit event trace, and the outcomes of the
external backends (pgx pool, redis, golang-migrate) are supplied as
explicit environment records so that every path of the Go code is a
computable branch of the Lean definition.  Strings are modelled as `List
Char` so that the message inspection done by the error classifiers (the
`(SQLSTATE ...)` scan and the sentinel comparisons) is executable.
-/

/-! ## Error model

The semantic error kinds of the taxonomy, one per `Err...` constructor used
by the embedded files (`ErrDatabaseGeneric`, `ErrCacheMiss`, ...). -/

inductive ErrKind
  | dbGeneric
  | dbTimedOut
  | dbUnhealthy
  | dbNoRows
  | dbIntegrityViolation
  | dbTransactionFailed
  | chGeneric
  | chTimedOut
  | chUnhealthy
  | chMiss
  | migGeneric
  | migTimedOut
  | deadlineExceeded
deriving DecidableEq

/-- A Go `error` value as seen by the embedded code: `raw` is an opaque
driver error carrying only its message, `pgxNoRows` and `cacheMiss` are the
two library sentinels the classifiers recognize, and `kitE`/`kitP` are kit
`*Error` values (with and without a wrapped cause). -/
inductive GoErr
  | raw (msg : String)
  | pgxNoRows
  | cacheMiss
  | kitE (k : ErrKind) (cause : GoErr)
  | kitP (k : ErrKind)
deriving DecidableEq

/-- Modelled from the spec: the short human message of each kit error kind
(the kit `Error` type is repository code that is not under `src/`; §3 says
an error kind is immutable and may carry a wrapped cause). The exact words
are not load-bearing; what matters below is that none of them contains a
parenthesis or a newline and that none of them is a prefix of a sentinel
message. -/
def kindMsg : ErrKind → List Char
  | .dbGeneric => ("database failed").data
  | .dbTimedOut => ("database timed out").data
  | .dbUnhealthy => ("database unhealthy").data
  | .dbNoRows => ("database no rows").data
  | .dbIntegrityViolation => ("database integrity violation").data
  | .dbTransactionFailed => ("database transaction failed").data
  | .chGeneric => ("cache failed").data
  | .chTimedOut => ("cache timed out").data
  | .chUnhealthy => ("cache unhealthy").data
  | .chMiss => ("cache miss").data
  | .migGeneric => ("migrator failed").data
  | .migTimedOut => ("migrator timed out").data
  | .deadlineExceeded => ("deadline exceeded").data

/-- pgx v4 sentinel message: `pgx.ErrNoRows = errors.New("no rows in result set")`. -/
def noRowsMsg : List Char := ("no rows in result set").data

/-- go-redis/cache v8 sentinel message: `ErrCacheMiss = errors.New("cache: key is missing")`. -/
def cacheMissMsg : List Char := ("cache: key is missing").data

/-- Modelled from the spec: the rendered message of an error value.  A kit
error that wraps a cause renders its own message, a separator, then the
cause chain (§7: every classified error carries the wrapped cause for
diagnostics). -/
def GoErr.msg : GoErr → List Char
  | .raw m => m.data
  | .pgxNoRows => noRowsMsg
  | .cacheMiss => cacheMissMsg
  | .kitE k c => kindMsg k ++ [':', ' '] ++ c.msg
  | .kitP k => kindMsg k

/-- The kind of the outermost classification of an error, if it is a kit error. -/
def GoErr.topKind : GoErr → Option ErrKind
  | .kitE k _ => some k
  | .kitP k => some k
  | _ => none

/-- Whether the error or anything in its wrapped-cause chain has the given
kind (the behavior of the kit `Error.Is` chain test, modelled from the
spec's wrapped-cause chain). -/
def GoErr.hasKind : GoErr → ErrKind → Bool
  | .kitE k c, k2 => k = k2 || c.hasKind k2
  | .kitP k, k2 => k = k2
  | _, _ => false

def optTopKind : Option GoErr → Option ErrKind
  | none => none
  | some e => e.topKind

def optHasKind (e : Option GoErr) (k : ErrKind) : Bool :=
  match e with
  | none => false
  | some e => e.hasKind k

/-! ## The SQLSTATE scan of `_dbErrToError`

`_DATABASE_ERR_PGCODE = regexp.MustCompile("\\(SQLSTATE (.*)\\)")` and
`FindStringSubmatch` : Go regexps are leftmost-first, `.` does not match a
newline, and `(.*)` is greedy, so the match starts at the leftmost
occurrence of the literal `(SQLSTATE ` that has a closing parenthesis
later on the same line, and the captured group extends to the last closing
parenthesis on that line. -/

def sqlstateTag : List Char := ['(', 'S', 'Q', 'L', 'S', 'T', 'A', 'T', 'E', ' ']

def startsWithL : List Char → List Char → Bool
  | [], _ => true
  | _ :: _, [] => false
  | p :: ps, c :: cs => p = c && startsWithL ps cs

/-- Index of the last closing parenthesis occurring strictly before any
newline, if any. -/
def lastParenIdx : List Char → Option Nat
  | [] => none
  | c :: cs =>
    if c = '\n' then none
    else
      match lastParenIdx cs with
      | some j => some (j + 1)
      | none => if c = ')' then some 0 else none

/-- The captured group of Go's `_DATABASE_ERR_PGCODE.FindStringSubmatch`:
scan for the leftmost position where the tag `(SQLSTATE ` matches and a
closing parenthesis follows on the same line; the greedy capture runs to
the last such parenthesis. -/
def findSqlstate : List Char → Option (List Char)
  | [] => none
  | c :: cs =>
    if startsWithL sqlstateTag (c :: cs) then
      match lastParenIdx ((c :: cs).drop sqlstateTag.length) with
      | some j => some (((c :: cs).drop sqlstateTag.length).take j)
      | none => findSqlstate cs
    else findSqlstate cs

/-- The seven `pgerrcode` constants of the integrity-violation family that
`_dbErrToError` recognizes. -/
def _DATABASE_INTEGRITY_PGCODES : List (List Char) :=
  [("23000").data, ("23001").data, ("23502").data, ("23503").data,
   ("23505").data, ("23514").data, ("23P01").data]

/-! ## The error classifiers -/

/-- Embedding of `_dbErrToError` (src/cache.go): nil maps to nil; a message
whose SQLSTATE capture is in the integrity family maps to
`IntegrityViolation`; a message equal to the `pgx.ErrNoRows` message maps
to `NoRows`; everything else maps to `Generic`; in every non-nil case the
raw error is kept as the wrapped cause. -/
def _dbErrToError : Option GoErr → Option GoErr
  | none => none
  | some e =>
    some
      (match findSqlstate e.msg with
       | some code =>
         if code ∈ _DATABASE_INTEGRITY_PGCODES then GoErr.kitE .dbIntegrityViolation e
         else if e.msg = noRowsMsg then GoErr.kitE .dbNoRows e
         else GoErr.kitE .dbGeneric e
       | none =>
         if e.msg = noRowsMsg then GoErr.kitE .dbNoRows e
         else GoErr.kitE .dbGeneric e)

/-- Embedding of `_chErrToError` (src/cache.go): nil maps to nil; the
`cache.ErrCacheMiss` sentinel (compared by identity in the Go `switch err`)
maps to the cache miss kind; everything else maps to `Generic`; the raw
error is kept as the wrapped cause. -/
def _chErrToError : Option GoErr → Option GoErr
  | none => none
  | some e =>
    some
      (if e = GoErr.cacheMiss then GoErr.kitE .chMiss e
       else GoErr.kitE .chGeneric e)

/-! ## Isolation levels

Go source (`src/cache.go`, newer database client):

  var (
    IsoLvlReadUncommitted IsolationLevel = 0
    IsoLvlReadCommitted   IsolationLevel
    IsoLvlRepeatableRead  IsolationLevel
    IsoLvlSerializable    IsolationLevel
  )

In a Go `var` block, a declaration without an initializer is the zero
value (there is no `iota`-style repetition outside `const` blocks), so all
four variables are 0.  The embedding keeps the source's values exactly. -/

abbrev IsolationLevel := Int

def IsoLvlReadUncommitted : IsolationLevel := 0
def IsoLvlReadCommitted : IsolationLevel := 0
def IsoLvlRepeatableRead : IsolationLevel := 0
def IsoLvlSerializable : IsolationLevel := 0

/-- The pgx `TxIsoLevel` string constants; `unspecified` is the zero value
a Go map lookup yields for a missing key. -/
inductive PgxTxIsoLevel
  | serializable
  | repeatableRead
  | readCommitted
  | readUncommitted
  | unspecified
deriving DecidableEq

/-- The `_KisoLevelToPisoLevel` map literal, kept as the ordered list of
its entries.  A Go map literal with non-constant keys is built by
successive insertion, so a later entry with an equal key overwrites an
earlier one. -/
def _KisoLevelToPisoLevel : List (IsolationLevel × PgxTxIsoLevel) :=
  [(IsoLvlReadUncommitted, .readUncommitted),
   (IsoLvlReadCommitted, .readCommitted),
   (IsoLvlRepeatableRead, .repeatableRead),
   (IsoLvlSerializable, .serializable)]

/-- Lookup in a Go map built from an ordered entry list: the last entry
with the key wins; a missing key yields the zero value. -/
def goMapLookup (m : List (IsolationLevel × PgxTxIsoLevel)) (k : IsolationLevel) :
    PgxTxIsoLevel :=
  match m.reverse.find? (fun p => decide (p.1 = k)) with
  | some p => p.2
  | none => .unspecified

/-! ## The transaction manager (`Database.Transaction`, newer version)

The context is modelled by whether it already carries a transaction handle
(`ctx.Value(KeyDatabaseTransaction)`).  The outcomes of the physical
backend and the successive `ctx.Err()` observations are an explicit
environment: `cancelFrom = some i` means the i-th cancellation checkpoint
of the outermost call (0 = right after begin, 1 = after `fn` returns, 2 =
after commit) and every later one observe a cancelled context —
cancellation is monotone. -/

structure TxCtx where
  inTxn : Bool
deriving DecidableEq

structure TxEnv where
  beginErr : Option String
  cancelFrom : Option Nat
  commitErr : Option String
  rollbackOk : Bool

def TxEnv.cancelled (env : TxEnv) (i : Nat) : Bool :=
  match env.cancelFrom with
  | some j => decide (j ≤ i)
  | none => false

/-- The side effects of one `Database.Transaction` execution on the
physical transaction, in order. -/
inductive TxEv
  | begin (lvl : PgxTxIsoLevel) (ok : Bool)
  | commit (ok : Bool)
  | rollback (ok : Bool)
deriving DecidableEq

/-- How a transaction body (and the call itself) terminates: normal
return without error, return with an error, or a Go panic carrying an
opaque value. -/
inductive TxOut
  | ok
  | err (e : GoErr)
  | panicked (v : String)
deriving DecidableEq

/-- `ErrDatabaseTransactionFailed().Wrap(ctx.Err())` : the cancellation
error the context reports. -/
def ctxCanceledErr : GoErr := GoErr.raw "context canceled"

/-- Embedding of the newer `Database.Transaction` (src/cache.go lines
1581-1641).  `level = none` is a nil `*IsolationLevel` and falls back to
the configured default.  If the context already carries a handle, `fn`
runs with the same context and its error, if any, is wrapped; nothing else
happens.  Otherwise one physical transaction is begun at the converted
level and the call follows the source's sequence of checks: begin error,
`ctx.Err()`, `fn`, `ctx.Err()`, commit, `ctx.Err()`.  The deferred
recover-rollback-repanic of the source is the `panicked` branch; the
source discards the rollback error (`_ = transaction.Rollback(ctx)`),
which is why no trace of `rollbackOk` enters any returned error. -/
def Database.transaction (defaultIsolationLevel : IsolationLevel) (env : TxEnv)
    (ctx : TxCtx) (level : Option IsolationLevel)
    (fn : TxCtx → TxOut × List TxEv) : TxOut × List TxEv :=
  if ctx.inTxn then
    match fn ctx with
    | (.ok, t) => (.ok, t)
    | (.err e, t) => (.err (GoErr.kitE .dbTransactionFailed e), t)
    | (.panicked v, t) => (.panicked v, t)
  else
    let lvl := goMapLookup _KisoLevelToPisoLevel (level.getD defaultIsolationLevel)
    match env.beginErr with
    | some m => (.err (GoErr.kitE .dbTransactionFailed (GoErr.raw m)), [.begin lvl false])
    | none =>
      if env.cancelled 0 then
        (.err (GoErr.kitE .dbTransactionFailed ctxCanceledErr), [.begin lvl true])
      else
        match fn { inTxn := true } with
        | (.panicked v, t) =>
          (.panicked v, .begin lvl true :: t ++ [.rollback env.rollbackOk])
        | (.err e, t) =>
          (.err (GoErr.kitE .dbTransactionFailed e),
           .begin lvl true :: t ++ [.rollback env.rollbackOk])
        | (.ok, t) =>
          if env.cancelled 1 then
            (.err (GoErr.kitE .dbTransactionFailed ctxCanceledErr),
             .begin lvl true :: t ++ [.rollback env.rollbackOk])
          else
            match env.commitErr with
            | some m =>
              (.err (GoErr.kitE .dbTransactionFailed (GoErr.raw m)),
               .begin lvl true :: t ++ [.commit false, .rollback env.rollbackOk])
            | none =>
              if env.cancelled 2 then
                (.err (GoErr.kitE .dbTransactionFailed ctxCanceledErr),
                 .begin lvl true :: t ++ [.commit true, .rollback env.rollbackOk])
              else (.ok, .begin lvl true :: t ++ [.commit true])

/-- `n`-deep reentrant nesting: depth 0 is the base body, depth `n+1` is a
`Database.Transaction` call whose body is the depth-`n` chain. -/
def nestedTransaction (defaultIsolationLevel : IsolationLevel) (env : TxEnv)
    (level : Option IsolationLevel) (fn : TxCtx → TxOut × List TxEv) :
    Nat → TxCtx → TxOut × List TxEv
  | 0, ctx => fn ctx
  | n + 1, ctx =>
    Database.transaction defaultIsolationLevel env ctx level
      (nestedTransaction defaultIsolationLevel env level fn n)

def beginCount (t : List TxEv) : Nat :=
  t.countP fun e => match e with | .begin _ _ => true | _ => false

def rollbackCount (t : List TxEv) : Nat :=
  t.countP fun e => match e with | .rollback _ => true | _ => false

/-- A terminal resolution of the physical transaction: a commit that
succeeded, or any rollback attempt (a failed commit attempt resolves
nothing by itself — the source immediately follows it with a rollback). -/
def resolutionCount (t : List TxEv) : Nat :=
  t.countP fun e => match e with | .commit true => true | .rollback _ => true | _ => false

def beginLevels (t : List TxEv) : List PgxTxIsoLevel :=
  t.filterMap fun e => match e with | .begin lvl _ => some lvl | _ => none

/-! ## The deadline executor and the retry policy

Both live in the repository's `util` package, which is not under `src/`;
they are modelled from the spec (§4.1, §4.2). -/

/-- Modelled from the spec: `util.Deadline` (§4.1).  With no deadline the
operation runs synchronously and its error is returned unchanged; if the
deadline expires first the executor returns `ErrDeadlineExceeded` without
waiting for the operation.  Whether the deadline expires first is a timing
fact supplied by the environment as `deadlineFires`. -/
def deadlineRun (deadlineFires : Bool) (r : Option GoErr) : Option GoErr :=
  if deadlineFires then some (GoErr.kitP .deadlineExceeded) else r

/-- Whether an error is retriable under a retriable-kind allowlist
(Modelled from the spec, §4.2: an empty list means every failure is
retriable, otherwise a failure not matching any listed kind aborts). -/
def errIsRetriable (retriables : List ErrKind) (e : GoErr) : Bool :=
  retriables.isEmpty || retriables.any fun k => e.hasKind k

/-- Modelled from the spec: `util.ExponentialRetry` (§4.2), with the
attempt bodies returning both their logged effects (here: the attempt
numbers actually performed) and their error.  Attempts are numbered from
1; the policy stops on the first success, on a non-retriable failure, or
after the last attempt; only the final failure is surfaced.  The backoff
delays are wall-clock behavior with no effect on results and are not
modelled. -/
def exponentialRetry (retriables : List ErrKind)
    (fn : Nat → List Nat × Option GoErr) : Nat → Nat → List Nat × Option GoErr
  | _, 0 => ([], none)
  | n, 1 => fn n
  | n, r + 2 =>
    match fn n with
    | (t, none) => (t, none)
    | (t, some e) =>
      if errIsRetriable retriables e then
        match exponentialRetry retriables fn (n + 1) (r + 1) with
        | (t2, res) => (t ++ t2, res)
      else (t, some e)

/-! ## Connecting (`NewDatabase` / `NewCache`) -/

structure ConnEnv where
  attempts : Nat
  dialErr : Nat → Option String
  pingErr : Nat → Option String
  deadlineFires : Bool

/-- One dial attempt of the newer `NewDatabase` (src/cache.go): connect the
pool, then ping it; either failure is wrapped as `ErrDatabaseGeneric`. The
attempt number is logged ("Trying to connect to the ... database %d/%d"). -/
def databaseDialBody (env : ConnEnv) (attempt : Nat) : List Nat × Option GoErr :=
  ([attempt],
   match env.dialErr attempt with
   | some m => some (GoErr.kitE .dbGeneric (GoErr.raw m))
   | none =>
     match env.pingErr attempt with
     | some m => some (GoErr.kitE .dbGeneric (GoErr.raw m))
     | none => none)

/-- The connection phase of the newer `NewDatabase`: deadline wraps retry
wraps dial-and-ping; a deadline expiry surfaces as `ErrDatabaseTimedOut`,
any other final failure as `ErrDatabaseGeneric` wrapping it.  The first
component is the list of attempt numbers performed (empty under a deadline
expiry: the in-flight body is abandoned and its count is timing-dependent,
which the claims never rely on). -/
def newDatabaseConnect (env : ConnEnv) : List Nat × Option GoErr :=
  if env.deadlineFires then ([], some (GoErr.kitP .dbTimedOut))
  else
    match exponentialRetry [] (databaseDialBody env) 1 env.attempts with
    | (t, none) => (t, none)
    | (t, some e) => (t, some (GoErr.kitE .dbGeneric e))

/-- One dial attempt of `NewCache` (src/cache.go): `redis.NewClient` cannot
fail, the subsequent ping can; its failure is wrapped as
`ErrCacheGeneric`. -/
def cacheDialBody (env : ConnEnv) (attempt : Nat) : List Nat × Option GoErr :=
  ([attempt],
   match env.pingErr attempt with
   | some m => some (GoErr.kitE .chGeneric (GoErr.raw m))
   | none => none)

/-- The connection phase of `NewCache`: same structure as the database,
with cache error kinds. -/
def newCacheConnect (env : ConnEnv) : List Nat × Option GoErr :=
  if env.deadlineFires then ([], some (GoErr.kitP .chTimedOut))
  else
    match exponentialRetry [] (cacheDialBody env) 1 env.attempts with
    | (t, none) => (t, none)
    | (t, some e) => (t, some (GoErr.kitE .chGeneric e))

/-! ## Health checks -/

structure HealthEnv where
  totalConns : Nat
  minConns : Nat
  pingErr : Option String
  pingResult : String
  ctxErr : Bool
  deadlineFires : Bool

/-- Embedding of the newer `Database.Health` (src/cache.go lines
1463-1491): inside the deadline executor, fail `Unhealthy` if the pool is
below the configured minimum, if the ping errors, or if the ambient
context is already cancelled; then the switch maps a deadline expiry to
`TimedOut` and wraps any other failure in `Generic`. -/
def Database.health (env : HealthEnv) : Option GoErr :=
  let inner : Option GoErr :=
    if env.totalConns < env.minConns then some (GoErr.kitP .dbUnhealthy)
    else
      match env.pingErr with
      | some m => some (GoErr.kitE .dbUnhealthy (GoErr.raw m))
      | none =>
        if env.ctxErr then some (GoErr.kitE .dbUnhealthy ctxCanceledErr)
        else none
  match deadlineRun env.deadlineFires inner with
  | none => none
  | some e =>
    if e.hasKind .deadlineExceeded then some (GoErr.kitP .dbTimedOut)
    else some (GoErr.kitE .dbGeneric e)

/-- Embedding of `Cache.Health` (src/cache.go lines 132-160): the probe is
a redis PING whose reply must be exactly "PONG"; otherwise as for the
database. -/
def Cache.health (env : HealthEnv) : Option GoErr :=
  let inner : Option GoErr :=
    if env.totalConns < env.minConns then some (GoErr.kitP .chUnhealthy)
    else
      match env.pingErr with
      | some m => some (GoErr.kitE .chUnhealthy (GoErr.raw m))
      | none =>
        if env.pingResult ≠ "PONG" then some (GoErr.kitP .chUnhealthy)
        else if env.ctxErr then some (GoErr.kitE .chUnhealthy ctxCanceledErr)
        else none
  match deadlineRun env.deadlineFires inner with
  | none => none
  | some e =>
    if e.hasKind .deadlineExceeded then some (GoErr.kitP .chTimedOut)
    else some (GoErr.kitE .chGeneric e)

/-! ## The migrator (`Migrator.Apply`) -/

/-- Go's `uint(x)` conversion of a 64-bit signed integer. -/
def goUint64 (i : Int) : Nat := (i % ((2 : Int) ^ 64)).toNat

structure MigEnv where
  version : Nat
  dirty : Bool
  versionErr : Option String
  deadlineFires : Bool

/-- Embedding of `Migrator.Apply` (src/migrator.go lines 169-229; the
newer copy in src/unnamed/part_000 lines 447-507 has identical guard
logic).  A nil current version (`migrate.ErrNilVersion`) is version 0 with
the dirty flag clear.  The golang-migrate `Migrate(target)` step is
modelled as applying each pending migration version in ascending order
(the library applies `current+1 .. target` in order on success).  Returns
the versions applied and the call's error. -/
def Migrator.apply (env : MigEnv) (schemaVersion : Int) : List Nat × Option GoErr :=
  let inner : List Nat × Option GoErr :=
    match env.versionErr with
    | some m => ([], some (GoErr.kitE .migGeneric (GoErr.raw m)))
    | none =>
      if env.dirty then ([], some (GoErr.kitP .migGeneric))
      else if env.version = goUint64 schemaVersion then ([], none)
      else if env.version > goUint64 schemaVersion then ([], some (GoErr.kitP .migGeneric))
      else (List.range' (env.version + 1) (goUint64 schemaVersion - env.version), none)
  match deadlineRun env.deadlineFires inner.2 with
  | none => (inner.1, none)
  | some e =>
    if e.hasKind .deadlineExceeded then (inner.1, some (GoErr.kitP .migTimedOut))
    else (inner.1, some (GoErr.kitE .migGeneric e))

/-! ## `Cache.Set` and the item time-to-live -/

/-- A Go `time.Duration` in nanoseconds. -/
abbrev GoDuration := Int

def goSecond : GoDuration := 1000000000

def goHour : GoDuration := 3600 * 1000000000

/-- The go-redis/cache v8 `Item.ttl()` normalization, modelled from that
library (external collaborator, not repository code): a negative TTL means
no expiration (0 is passed to redis, i.e. a plain SET), a TTL of zero or
below one second is replaced by the library's default TTL of one hour, and
any other TTL is kept.  The returned value is the expiration actually
given to redis, where 0 means the key never expires. -/
def cacheItemEffectiveTTL (ttl : GoDuration) : GoDuration :=
  if ttl < 0 then 0
  else if ttl ≠ 0 then (if ttl < goSecond then goHour else ttl)
  else goHour

/-- Embedding of `Cache.Set` (src/cache.go lines 175-192): a nil ttl
pointer is replaced by a zero duration, the item is stored with that TTL
field, and the only error source is the backend store, classified through
`_chErrToError`.  Returns the `Item.TTL` field passed to the cache library
and the call's error. -/
def Cache.set (backendErr : Option GoErr) (ttl : Option GoDuration) :
    GoDuration × Option GoErr :=
  let t := ttl.getD 0
  (t,
   match backendErr with
   | some e => _chErrToError (some e)
   | none => none)

/-! ## Concrete inputs used by the claim theorems -/

/-- A benign environment: begin, commit and rollback all succeed and the
context is never observed cancelled. -/
def okEnv : TxEnv :=
  { beginErr := none, cancelFrom := none, commitErr := none, rollbackOk := true }

/-- An environment in which the context is observed cancelled from the
first checkpoint on (right after the successful begin). -/
def cancelAfterBeginEnv : TxEnv :=
  { beginErr := none, cancelFrom := some 0, commitErr := none, rollbackOk := true }

/-- An environment in which the rollback itself fails. -/
def rollbackFailEnv : TxEnv :=
  { beginErr := none, cancelFrom := none, commitErr := none, rollbackOk := false }

/-- A transaction body that returns without error and performs no
transaction operations of its own. -/
def okBody : TxCtx → TxOut × List TxEv := fun _ => (.ok, [])

/-- A transaction body that fails with an opaque error. -/
def errBody : TxCtx → TxOut × List TxEv := fun _ => (.err (GoErr.raw "boom"), [])

/-- A transaction body that panics with the given value. -/
def panicBody (v : String) : TxCtx → TxOut × List TxEv := fun _ => (.panicked v, [])

/-- A realistic PostgreSQL unique-violation message as rendered by pgx. -/
def dupKeyMsg : String :=
  "ERROR: duplicate key value violates unique constraint \"users_pkey\" (SQLSTATE 23505)"

/-- A clean (not dirty) schema state at version 3. -/
def cleanV3Env : MigEnv :=
  { version := 3, dirty := false, versionErr := none, deadlineFires := false }

/-- A dirty schema state at version 3. -/
def dirtyV3Env : MigEnv :=
  { version := 3, dirty := true, versionErr := none, deadlineFires := false }

/-! ## Helper lemmas -/

theorem startsWithL_self_append (p r : List Char) : startsWithL p (p ++ r) = true := by
  induction p with
  | nil => rfl
  | cons c cs ih => simp [startsWithL, ih]

/-- Scanning for the SQLSTATE tag skips over any prefix that contains no
opening parenthesis. -/
theorem findSqlstate_clean_append (p s : List Char) (hp : ∀ c ∈ p, c ≠ '(') :
    findSqlstate (p ++ s) = findSqlstate s := by
  induction p with
  | nil => rfl
  | cons c cs ih =>
    have hc : c ≠ '(' := hp c (List.mem_cons_self c cs)
    have hsw : startsWithL sqlstateTag (c :: (cs ++ s)) = false := by
      simp only [sqlstateTag, startsWithL, Bool.and_eq_false_iff]
      left
      simpa [eq_comm] using hc
    rw [List.cons_append, findSqlstate, hsw]
    simp only [Bool.false_eq_true, if_false]
    exact ih fun d hd => hp d (List.mem_cons_of_mem c hd)

/-- The message prefix a kit error adds contains no opening parenthesis. -/
theorem kindMsg_clean (k : ErrKind) : ∀ c ∈ kindMsg k ++ [':', ' '], c ≠ '(' := by
  cases k <;> decide

/-- Wrapping an error in a kit classification does not change the result
of the SQLSTATE scan of its rendered message. -/
theorem findSqlstate_kitE (k : ErrKind) (c : GoErr) :
    findSqlstate (GoErr.kitE k c).msg = findSqlstate c.msg := by
  show findSqlstate (kindMsg k ++ [':', ' '] ++ c.msg) = findSqlstate c.msg
  exact findSqlstate_clean_append _ _ (kindMsg_clean k)

/-- A kit error message never equals a sentinel message whose text does
not start with the kit error's own prefix. -/
theorem kitE_msg_ne (k : ErrKind) (c : GoErr) (sm : List Char)
    (h : startsWithL (kindMsg k ++ [':', ' ']) sm = false) :
    (GoErr.kitE k c).msg ≠ sm := by
  intro he
  have : startsWithL (kindMsg k ++ [':', ' ']) sm = true := by
    rw [← he]
    show startsWithL _ (kindMsg k ++ [':', ' '] ++ c.msg) = true
    exact startsWithL_self_append _ _
  rw [h] at this
  exact Bool.false_ne_true this

theorem findSqlstate_noRowsMsg : findSqlstate noRowsMsg = none := by
  decide

theorem cancelled_zero_false (env : TxEnv) (h : env.cancelFrom ≠ some 0) :
    env.cancelled 0 = false := by
  rcases hj : env.cancelFrom with _ | j
  · simp [TxEnv.cancelled, hj]
  · have hz : j ≠ 0 := fun hz => h (hz ▸ hj)
    simp [TxEnv.cancelled, hj, Nat.le_zero, hz]

/-- A nested (reentrant) chain run on a context that already carries a
transaction handle performs no transaction operations beyond those of its
base body. -/
theorem nested_inTxn_trace (dflt : IsolationLevel) (env : TxEnv)
    (lvl : Option IsolationLevel) (fn : TxCtx → TxOut × List TxEv) :
    ∀ n (ctx : TxCtx), ctx.inTxn = true →
      (nestedTransaction dflt env lvl fn n ctx).2 = (fn ctx).2 := by
  intro n
  induction n with
  | zero => intro ctx _; rfl
  | succ n ih =>
    intro ctx hctx
    show (Database.transaction dflt env ctx lvl (nestedTransaction dflt env lvl fn n)).2
        = (fn ctx).2
    rw [Database.transaction, hctx]
    simp only [if_true]
    rcases hr : nestedTransaction dflt env lvl fn n ctx with ⟨out, t⟩
    have ht : t = (fn ctx).2 := by
      have := ih ctx hctx
      rw [hr] at this
      exact this
    cases out <;> simpa using ht

/-- A base body that panics makes the whole reentrant chain panic with the
same value and no transaction operations, as long as the context already
carries a handle. -/
theorem nested_inTxn_panic (dflt : IsolationLevel) (env : TxEnv)
    (lvl : Option IsolationLevel) (v : String) :
    ∀ n (ctx : TxCtx), ctx.inTxn = true →
      nestedTransaction dflt env lvl (panicBody v) n ctx = (.panicked v, []) := by
  intro n
  induction n with
  | zero => intro ctx _; rfl
  | succ n ih =>
    intro ctx hctx
    show Database.transaction dflt env ctx lvl (nestedTransaction dflt env lvl (panicBody v) n)
        = (.panicked v, [])
    rw [Database.transaction, hctx]
    simp only [if_true, ih ctx hctx]

/-- C1 (counterexample): in a depth-1 logical call chain whose ambient
context is observed cancelled right after the successful begin, the
outermost `Database.Transaction` performs one begin but neither a commit
nor a rollback, so "exactly one begin and exactly one commit-or-rollback
occur per logical call chain" is false as stated. -/
theorem c1_nesting_counterexample :
    beginCount
        (Database.transaction IsoLvlReadCommitted cancelAfterBeginEnv
          { inTxn := false } none okBody).2 = 1
    ∧ resolutionCount
        (Database.transaction IsoLvlReadCommitted cancelAfterBeginEnv
          { inTxn := false } none okBody).2 = 0 := by
  decide

/-- C1 (amended): a `Database.Transaction` call on a context already
carrying a handle is reentrant exactly as claimed — it ignores the
requested isolation level, performs no begin/commit/rollback of its own,
and invokes `fn` with the same context (wrapping only a returned error);
and for every nesting depth whose outermost begin succeeds and whose
ambient context is never observed cancelled, exactly one begin and exactly
one commit-or-rollback occur, performed by the outermost call.  (The
cancellation paths violate the unrestricted count: see the
counterexample.) -/
theorem c1_nesting_amended :
    (∀ (dflt : IsolationLevel) (env : TxEnv) (ctx : TxCtx)
        (lvl lvl2 : Option IsolationLevel) (fn : TxCtx → TxOut × List TxEv),
      ctx.inTxn = true →
      Database.transaction dflt env ctx lvl fn = Database.transaction dflt env ctx lvl2 fn
      ∧ (Database.transaction dflt env ctx lvl fn).2 = (fn ctx).2
      ∧ ((fn ctx).1 = .ok → (Database.transaction dflt env ctx lvl fn).1 = .ok)
      ∧ (∀ e, (fn ctx).1 = .err e →
          (Database.transaction dflt env ctx lvl fn).1
            = .err (GoErr.kitE .dbTransactionFailed e))
      ∧ (∀ v, (fn ctx).1 = .panicked v →
          (Database.transaction dflt env ctx lvl fn).1 = .panicked v))
    ∧ (∀ (dflt : IsolationLevel) (env : TxEnv) (lvl : Option IsolationLevel)
        (fn : TxCtx → TxOut × List TxEv) (n : Nat),
      env.beginErr = none → env.cancelFrom = none → (fn { inTxn := true }).2 = [] →
      beginCount (nestedTransaction dflt env lvl fn (n + 1) { inTxn := false }).2 = 1
      ∧ resolutionCount (nestedTransaction dflt env lvl fn (n + 1) { inTxn := false }).2 = 1) := by
  constructor
  · intro dflt env ctx lvl lvl2 fn hctx
    have tx_eq : ∀ lvl' : Option IsolationLevel,
        Database.transaction dflt env ctx lvl' fn =
          match fn ctx with
          | (.ok, t) => (.ok, t)
          | (.err e, t) => (.err (GoErr.kitE .dbTransactionFailed e), t)
          | (.panicked v, t) => (.panicked v, t) := by
      intro lvl'
      rw [Database.transaction, hctx, if_pos rfl]
    rcases hfc : fn ctx with ⟨out, t⟩
    refine ⟨by rw [tx_eq lvl, tx_eq lvl2], ?_, ?_, ?_, ?_⟩
    · rw [tx_eq lvl, hfc]
      cases out <;> rfl
    · intro hok
      have h : out = TxOut.ok := hok
      subst h
      rw [tx_eq lvl, hfc]
    · intro e he
      have h : out = TxOut.err e := he
      subst h
      rw [tx_eq lvl, hfc]
    · intro v hv
      have h : out = TxOut.panicked v := hv
      subst h
      rw [tx_eq lvl, hfc]
  · intro dflt env lvl fn n h1 h2 h3
    have hcan : ∀ i, env.cancelled i = false := by
      intro i
      simp [TxEnv.cancelled, h2]
    rcases hin : nestedTransaction dflt env lvl fn n { inTxn := true } with ⟨out, t⟩
    have ht : t = [] := by
      have h := nested_inTxn_trace dflt env lvl fn n { inTxn := true } rfl
      rw [hin, h3] at h
      exact h
    subst ht
    show beginCount (Database.transaction dflt env { inTxn := false } lvl
        (nestedTransaction dflt env lvl fn n)).2 = 1
      ∧ resolutionCount (Database.transaction dflt env { inTxn := false } lvl
        (nestedTransaction dflt env lvl fn n)).2 = 1
    rw [Database.transaction]
    simp only [h1, hcan, hin]
    cases out with
    | ok =>
      rcases hce : env.commitErr with _ | m <;>
        simp [hce, beginCount, resolutionCount, List.countP_cons, List.countP_nil]
    | err e =>
      simp [beginCount, resolutionCount, List.countP_cons, List.countP_nil]
    | panicked v =>
      simp [beginCount, resolutionCount, List.countP_cons, List.countP_nil]

/-- C1 (witness): at depth 3 with a benign environment the chain performs
exactly one begin and one resolution, and a nested call's result does not
depend on the isolation level it requests. -/
theorem c1_nesting_amended_witness :
    beginCount (nestedTransaction IsoLvlReadCommitted okEnv none okBody 3
        { inTxn := false }).2 = 1
    ∧ resolutionCount (nestedTransaction IsoLvlReadCommitted okEnv none okBody 3
        { inTxn := false }).2 = 1
    ∧ Database.transaction IsoLvlReadCommitted okEnv { inTxn := true }
        (some IsoLvlSerializable) okBody
      = Database.transaction IsoLvlReadCommitted okEnv { inTxn := true }
        (some IsoLvlReadCommitted) okBody := by
  refine ⟨?_, ?_, ?_⟩
  · exact (c1_nesting_amended.2 IsoLvlReadCommitted okEnv none okBody 2 rfl rfl rfl).1
  · exact (c1_nesting_amended.2 IsoLvlReadCommitted okEnv none okBody 2 rfl rfl rfl).2
  · exact (c1_nesting_amended.1 IsoLvlReadCommitted okEnv { inTxn := true }
      (some IsoLvlSerializable) (some IsoLvlReadCommitted) okBody rfl).1

/-- C2 (code bug): all four `IsoLvl...` variables are declared in a Go
`var` block where only the first has an initializer, so all four are the
zero value 0 and the `_KisoLevelToPisoLevel` map literal collapses to a
single binding whose value is the last entry, `serializable`.  Every
requested isolation level — including the configured default
`IsoLvlReadCommitted` used when `level` is nil — therefore begins the
physical transaction at Serializable, contradicting the claim that the
requested level (default Read Committed) is attached. -/
theorem c2_isolation_level_collapse :
    goMapLookup _KisoLevelToPisoLevel IsoLvlReadUncommitted = .serializable
    ∧ goMapLookup _KisoLevelToPisoLevel IsoLvlReadCommitted = .serializable
    ∧ goMapLookup _KisoLevelToPisoLevel IsoLvlRepeatableRead = .serializable
    ∧ goMapLookup _KisoLevelToPisoLevel IsoLvlSerializable = .serializable
    ∧ IsoLvlReadUncommitted = IsoLvlSerializable
    ∧ IsoLvlReadCommitted = IsoLvlSerializable
    ∧ IsoLvlRepeatableRead = IsoLvlSerializable
    ∧ beginLevels (Database.transaction IsoLvlReadCommitted okEnv
        { inTxn := false } none okBody).2 = [.serializable]
    ∧ beginLevels (Database.transaction IsoLvlReadCommitted okEnv
        { inTxn := false } (some IsoLvlReadCommitted) okBody).2 = [.serializable] := by
  decide

/-- C3: a panic raised by the body at any nesting depth propagates through
the nested reentrant calls untouched, the outermost call performs exactly
one rollback, and the panic is re-raised with the same value — never
converted into a returned error (the result is `panicked v`, not `err`). -/
theorem c3_panic_rollback_repanic :
    ∀ (dflt : IsolationLevel) (env : TxEnv) (lvl : Option IsolationLevel)
      (v : String) (n : Nat),
      env.beginErr = none → env.cancelFrom ≠ some 0 →
      nestedTransaction dflt env lvl (panicBody v) (n + 1) { inTxn := false }
        = (.panicked v,
           [.begin (goMapLookup _KisoLevelToPisoLevel (lvl.getD dflt)) true,
            .rollback env.rollbackOk])
      ∧ rollbackCount
          (nestedTransaction dflt env lvl (panicBody v) (n + 1) { inTxn := false }).2 = 1 := by
  intro dflt env lvl v n h1 h2
  have hin := nested_inTxn_panic dflt env lvl v n { inTxn := true } rfl
  have hc0 := cancelled_zero_false env h2
  have heq : nestedTransaction dflt env lvl (panicBody v) (n + 1) { inTxn := false }
      = (.panicked v,
         [.begin (goMapLookup _KisoLevelToPisoLevel (lvl.getD dflt)) true,
          .rollback env.rollbackOk]) := by
    show Database.transaction dflt env { inTxn := false } lvl
        (nestedTransaction dflt env lvl (panicBody v) n) = _
    rw [Database.transaction]
    simp only [h1, hc0, hin]
    rfl
  refine ⟨heq, ?_⟩
  rw [heq]
  simp [rollbackCount, List.countP_cons, List.countP_nil]

/-- C3 (witness): depth 2, benign environment, panic value "boom". -/
theorem c3_panic_rollback_repanic_witness :
    nestedTransaction IsoLvlReadCommitted okEnv none (panicBody "boom") 2
        { inTxn := false }
      = (.panicked "boom", [.begin .serializable true, .rollback true])
    ∧ rollbackCount
        (nestedTransaction IsoLvlReadCommitted okEnv none (panicBody "boom") 2
          { inTxn := false }).2 = 1 := by
  have h := c3_panic_rollback_repanic IsoLvlReadCommitted okEnv none "boom" 1 rfl
    (by decide)
  exact ⟨h.1, h.2⟩

/-- C4 (counterexample): the claim fails on two paths of the source.  If
the ambient context is observed cancelled after the successful begin but
before `fn` runs, the call returns `TransactionFailed` without attempting
any rollback; and when `fn` fails and the rollback also fails, the
returned error is identical to the one produced when the rollback
succeeds — the rollback error is discarded, not attached. -/
theorem c4_rollback_counterexample :
    rollbackCount (Database.transaction IsoLvlReadCommitted cancelAfterBeginEnv
        { inTxn := false } none okBody).2 = 0
    ∧ (Database.transaction IsoLvlReadCommitted cancelAfterBeginEnv
        { inTxn := false } none okBody).1
      = .err (GoErr.kitE .dbTransactionFailed ctxCanceledErr)
    ∧ (Database.transaction IsoLvlReadCommitted rollbackFailEnv
        { inTxn := false } none errBody).1
      = (Database.transaction IsoLvlReadCommitted okEnv
          { inTxn := false } none errBody).1
    ∧ (Database.transaction IsoLvlReadCommitted rollbackFailEnv
        { inTxn := false } none errBody).1
      = .err (GoErr.kitE .dbTransactionFailed (GoErr.raw "boom")) := by
  decide

/-- C4 (amended): when `fn` returns a non-nil error, or the context is
observed cancelled after `fn` runs, or the commit fails, the outermost
call attempts exactly one rollback and returns a `TransactionFailed` error
wrapping the primary failure; the rollback error, if any, is discarded
rather than attached (the result does not depend on it); and when the
context is observed cancelled after begin but before `fn` runs, the call
returns `TransactionFailed` wrapping the cancellation without attempting
any rollback. -/
theorem c4_rollback_amended :
    ∀ (dflt : IsolationLevel) (env : TxEnv) (lvl : Option IsolationLevel)
      (fn : TxCtx → TxOut × List TxEv) (e : GoErr) (t : List TxEv),
      env.beginErr = none →
      ((env.cancelled 0 = false → fn { inTxn := true } = (.err e, t) →
        Database.transaction dflt env { inTxn := false } lvl fn =
          (.err (GoErr.kitE .dbTransactionFailed e),
           .begin (goMapLookup _KisoLevelToPisoLevel (lvl.getD dflt)) true :: t
             ++ [.rollback env.rollbackOk]))
      ∧ (env.cancelled 0 = false → env.cancelled 1 = true →
          fn { inTxn := true } = (.ok, t) →
        Database.transaction dflt env { inTxn := false } lvl fn =
          (.err (GoErr.kitE .dbTransactionFailed ctxCanceledErr),
           .begin (goMapLookup _KisoLevelToPisoLevel (lvl.getD dflt)) true :: t
             ++ [.rollback env.rollbackOk]))
      ∧ (∀ m, env.cancelled 0 = false → env.cancelled 1 = false →
          env.commitErr = some m → fn { inTxn := true } = (.ok, t) →
        Database.transaction dflt env { inTxn := false } lvl fn =
          (.err (GoErr.kitE .dbTransactionFailed (GoErr.raw m)),
           .begin (goMapLookup _KisoLevelToPisoLevel (lvl.getD dflt)) true :: t
             ++ [.commit false, .rollback env.rollbackOk]))
      ∧ (env.cancelled 0 = true →
        Database.transaction dflt env { inTxn := false } lvl fn =
          (.err (GoErr.kitE .dbTransactionFailed ctxCanceledErr),
           [.begin (goMapLookup _KisoLevelToPisoLevel (lvl.getD dflt)) true]))) := by
  intro dflt env lvl fn e t h1
  refine ⟨?_, ?_, ?_, ?_⟩
  · intro hc0 hfn
    rw [Database.transaction]
    simp only [h1, hc0, hfn]
    rfl
  · intro hc0 hc1 hfn
    rw [Database.transaction]
    simp only [h1, hc0, hc1, hfn]
    rfl
  · intro m hc0 hc1 hcm hfn
    rw [Database.transaction]
    simp only [h1, hc0, hc1, hcm, hfn]
    rfl
  · intro hc0
    rw [Database.transaction]
    simp only [h1, hc0]
    rfl

/-- C4 (witness): a failing body under a benign environment is rolled
back and reported as `TransactionFailed` wrapping the body's error. -/
theorem c4_rollback_amended_witness :
    Database.transaction IsoLvlReadCommitted okEnv { inTxn := false } none errBody
      = (.err (GoErr.kitE .dbTransactionFailed (GoErr.raw "boom")),
         [.begin .serializable true, .rollback true]) := by
  exact (c4_rollback_amended IsoLvlReadCommitted okEnv none errBody
    (GoErr.raw "boom") [] rfl).1 rfl rfl

/-- C5: when no wall-clock deadline expires during the check, both
`Database.Health` and `Cache.Health` report an error whose kind chain
contains `Unhealthy` if and only if the pool is below the configured
minimum, or the liveness probe fails (for the cache: an error or a
non-PONG reply), or the ambient context is already cancelled; and they
return nil exactly otherwise.  (The outer classification switch wraps the
`Unhealthy` error in a `Generic` one; `Unhealthy` is detected through the
wrapped-cause chain, the way the kit `Error.Is` test works.) -/
theorem c5_health_iff :
    ∀ env : HealthEnv, env.deadlineFires = false →
      ((optHasKind (Database.health env) .dbUnhealthy = true ↔
        (env.totalConns < env.minConns ∨ env.pingErr ≠ none ∨ env.ctxErr = true))
      ∧ (Database.health env = none ↔
        ¬(env.totalConns < env.minConns ∨ env.pingErr ≠ none ∨ env.ctxErr = true))
      ∧ (optHasKind (Cache.health env) .chUnhealthy = true ↔
        (env.totalConns < env.minConns ∨ env.pingErr ≠ none ∨ env.pingResult ≠ "PONG"
          ∨ env.ctxErr = true))
      ∧ (Cache.health env = none ↔
        ¬(env.totalConns < env.minConns ∨ env.pingErr ≠ none ∨ env.pingResult ≠ "PONG"
          ∨ env.ctxErr = true))) := by
  intro env h
  by_cases hmin : env.totalConns < env.minConns <;>
    rcases hping : env.pingErr with _ | m <;>
      by_cases hres : env.pingResult = "PONG" <;>
        cases hctx : env.ctxErr <;>
          simp [Database.health, Cache.health, deadlineRun, h, hmin, hping, hres, hctx,
            optHasKind, GoErr.hasKind]

/-- C5 (witness): a pool below minimum is reported unhealthy; a healthy
environment yields nil, for both clients. -/
theorem c5_health_iff_witness :
    optHasKind (Database.health
        { totalConns := 0, minConns := 1, pingErr := none, pingResult := "PONG",
          ctxErr := false, deadlineFires := false }) .dbUnhealthy = true
    ∧ Cache.health
        { totalConns := 2, minConns := 1, pingErr := none, pingResult := "PONG",
          ctxErr := false, deadlineFires := false } = none := by
  constructor
  · exact (c5_health_iff
      { totalConns := 0, minConns := 1, pingErr := none, pingResult := "PONG",
        ctxErr := false, deadlineFires := false } rfl).1.mpr (Or.inl (by decide))
  · exact (c5_health_iff
      { totalConns := 2, minConns := 1, pingErr := none, pingResult := "PONG",
        ctxErr := false, deadlineFires := false } rfl).2.2.2.mpr (by decide)

/-- C6 (counterexample): classification is not idempotent as claimed.  The
cache classifier matches the miss sentinel by identity, so re-classifying
a classified miss yields `Generic` instead of the miss kind; likewise the
database classifier matches the no-rows sentinel by exact message, which
wrapping destroys.  The second classification also wraps the first one —
a nested classification. -/
theorem c6_idempotence_counterexample :
    optTopKind (_chErrToError (some GoErr.cacheMiss)) = some .chMiss
    ∧ optTopKind (_chErrToError (_chErrToError (some GoErr.cacheMiss))) = some .chGeneric
    ∧ ErrKind.chGeneric ≠ ErrKind.chMiss
    ∧ optTopKind (_dbErrToError (some GoErr.pgxNoRows)) = some .dbNoRows
    ∧ optTopKind (_dbErrToError (_dbErrToError (some GoErr.pgxNoRows))) = some .dbGeneric
    ∧ _chErrToError (_chErrToError (some GoErr.cacheMiss))
      = some (GoErr.kitE .chGeneric (GoErr.kitE .chMiss GoErr.cacheMiss)) := by
  decide

/-- C6 (amended): double classification preserves the kind for the
`IntegrityViolation` and `Generic` outcomes (the SQLSTATE text survives in
the rendered message of the wrapper), but a classified `NoRows` result
degrades to `Generic` on re-classification, and the cache classifier
always yields `Generic` on any already-classified input, wrapping it into
a nested classification. -/
theorem c6_idempotence_amended :
    (∀ e : GoErr,
      optTopKind (_dbErrToError (some e)) = some .dbIntegrityViolation →
      optTopKind (_dbErrToError (_dbErrToError (some e))) = some .dbIntegrityViolation)
    ∧ (∀ e : GoErr,
      optTopKind (_dbErrToError (some e)) = some .dbGeneric →
      optTopKind (_dbErrToError (_dbErrToError (some e))) = some .dbGeneric)
    ∧ (∀ e : GoErr,
      optTopKind (_dbErrToError (some e)) = some .dbNoRows →
      optTopKind (_dbErrToError (_dbErrToError (some e))) = some .dbGeneric)
    ∧ (∀ e : GoErr,
      optTopKind (_chErrToError (_chErrToError (some e))) = some .chGeneric) := by
  refine ⟨?_, ?_, ?_, ?_⟩
  · intro e h
    rcases hf : findSqlstate e.msg with _ | code
    · by_cases hm : e.msg = noRowsMsg <;>
        simp [_dbErrToError, hf, hm, findSqlstate_noRowsMsg, optTopKind, GoErr.topKind] at h
    · by_cases hcc : code ∈ _DATABASE_INTEGRITY_PGCODES
      · have hd1 : _dbErrToError (some e) = some (GoErr.kitE .dbIntegrityViolation e) := by
          simp [_dbErrToError, hf, hcc]
        rw [hd1]
        have hf2 : findSqlstate (GoErr.kitE ErrKind.dbIntegrityViolation e).msg
            = some code := by
          rw [findSqlstate_kitE]; exact hf
        simp [_dbErrToError, hf2, hcc, optTopKind, GoErr.topKind]
      · by_cases hm : e.msg = noRowsMsg <;>
          simp [_dbErrToError, hf, hcc, hm, findSqlstate_noRowsMsg, optTopKind,
            GoErr.topKind] at h
  · intro e h
    have hd1 : _dbErrToError (some e) = some (GoErr.kitE .dbGeneric e) := by
      rcases hf : findSqlstate e.msg with _ | code
      · by_cases hm : e.msg = noRowsMsg <;>
          simp [_dbErrToError, hf, hm, findSqlstate_noRowsMsg, optTopKind,
            GoErr.topKind] at h ⊢
      · by_cases hcc : code ∈ _DATABASE_INTEGRITY_PGCODES
        · simp [_dbErrToError, hf, hcc, optTopKind, GoErr.topKind] at h
        · by_cases hm : e.msg = noRowsMsg <;>
            simp [_dbErrToError, hf, hcc, hm, findSqlstate_noRowsMsg, optTopKind,
              GoErr.topKind] at h ⊢
    rw [hd1]
    have hne : (GoErr.kitE ErrKind.dbGeneric e).msg ≠ noRowsMsg :=
      kitE_msg_ne .dbGeneric e noRowsMsg (by decide)
    rcases hf : findSqlstate e.msg with _ | code
    · have hf2 : findSqlstate (GoErr.kitE ErrKind.dbGeneric e).msg = none := by
        rw [findSqlstate_kitE]; exact hf
      simp [_dbErrToError, hf2, hne, optTopKind, GoErr.topKind]
    · have hcc : code ∉ _DATABASE_INTEGRITY_PGCODES := by
        intro hmem
        simp [_dbErrToError, hf, hmem, optTopKind, GoErr.topKind] at h
      have hf2 : findSqlstate (GoErr.kitE ErrKind.dbGeneric e).msg = some code := by
        rw [findSqlstate_kitE]; exact hf
      simp [_dbErrToError, hf2, hcc, hne, optTopKind, GoErr.topKind]
  · intro e h
    have hm : e.msg = noRowsMsg := by
      rcases hf : findSqlstate e.msg with _ | code
      · by_cases hm : e.msg = noRowsMsg
        · exact hm
        · simp [_dbErrToError, hf, hm, optTopKind, GoErr.topKind] at h
      · by_cases hcc : code ∈ _DATABASE_INTEGRITY_PGCODES
        · simp [_dbErrToError, hf, hcc, optTopKind, GoErr.topKind] at h
        · by_cases hm : e.msg = noRowsMsg
          · exact hm
          · simp [_dbErrToError, hf, hcc, hm, optTopKind, GoErr.topKind] at h
    have hf : findSqlstate e.msg = none := by rw [hm]; decide
    have hd1 : _dbErrToError (some e) = some (GoErr.kitE .dbNoRows e) := by
      simp [_dbErrToError, hf, hm, findSqlstate_noRowsMsg]
    rw [hd1]
    have hf2 : findSqlstate (GoErr.kitE ErrKind.dbNoRows e).msg = none := by
      rw [findSqlstate_kitE, hm]; decide
    have hne : (GoErr.kitE ErrKind.dbNoRows e).msg ≠ noRowsMsg :=
      kitE_msg_ne .dbNoRows e noRowsMsg (by decide)
    simp [_dbErrToError, hf2, hne, optTopKind, GoErr.topKind]
  · intro e
    by_cases he : e = GoErr.cacheMiss <;>
      simp [_chErrToError, he, optTopKind, GoErr.topKind]

/-- C6 (witness): the no-rows sentinel degrades to `Generic` on the second
classification, and any already-classified cache error re-classifies to
`Generic`. -/
theorem c6_idempotence_amended_witness :
    optTopKind (_dbErrToError (_dbErrToError (some GoErr.pgxNoRows))) = some .dbGeneric
    ∧ optTopKind (_chErrToError (_chErrToError (some (GoErr.raw "x")))) = some .chGeneric :=
  ⟨c6_idempotence_amended.2.2.1 GoErr.pgxNoRows (by decide),
   c6_idempotence_amended.2.2.2 (GoErr.raw "x")⟩

/-- C7: the database classifier maps every raw error whose message carries
a recognized SQLSTATE integrity-family code to `IntegrityViolation`, the
no-rows sentinel message to `NoRows`, the cache classifier maps the cache
miss sentinel to the miss kind, and every other non-nil error maps to
`Generic`; the raw error is always kept as the wrapped cause, and nil maps
to nil.  A realistic pgx unique-violation message is classified concretely
as `IntegrityViolation`. -/
theorem c7_classifier_mapping :
    (∀ (e : GoErr) (code : List Char),
      findSqlstate e.msg = some code → code ∈ _DATABASE_INTEGRITY_PGCODES →
      _dbErrToError (some e) = some (GoErr.kitE .dbIntegrityViolation e))
    ∧ (∀ e : GoErr, e.msg = noRowsMsg →
      _dbErrToError (some e) = some (GoErr.kitE .dbNoRows e))
    ∧ (∀ e : GoErr, findSqlstate e.msg = none → e.msg ≠ noRowsMsg →
      _dbErrToError (some e) = some (GoErr.kitE .dbGeneric e))
    ∧ (∀ (e : GoErr) (code : List Char),
      findSqlstate e.msg = some code → code ∉ _DATABASE_INTEGRITY_PGCODES →
      e.msg ≠ noRowsMsg →
      _dbErrToError (some e) = some (GoErr.kitE .dbGeneric e))
    ∧ _chErrToError (some GoErr.cacheMiss) = some (GoErr.kitE .chMiss GoErr.cacheMiss)
    ∧ (∀ e : GoErr, e ≠ GoErr.cacheMiss →
      _chErrToError (some e) = some (GoErr.kitE .chGeneric e))
    ∧ _dbErrToError none = none
    ∧ _chErrToError none = none
    ∧ _dbErrToError (some (GoErr.raw dupKeyMsg))
      = some (GoErr.kitE .dbIntegrityViolation (GoErr.raw dupKeyMsg)) := by
  refine ⟨?_, ?_, ?_, ?_, by decide, ?_, rfl, rfl, by decide⟩
  · intro e code h1 h2
    simp [_dbErrToError, h1, h2]
  · intro e he
    have hf : findSqlstate e.msg = none := by rw [he]; decide
    simp [_dbErrToError, hf, he, findSqlstate_noRowsMsg]
  · intro e h1 h2
    simp [_dbErrToError, h1, h2]
  · intro e code h1 h2 h3
    simp [_dbErrToError, h1, h2, h3]
  · intro e he
    simp [_chErrToError, he]

/-- C7 (witness): the concrete duplicate-key message classifies as
`IntegrityViolation` through the first conjunct, and an opaque cache error
classifies as `Generic` through the sixth. -/
theorem c7_classifier_mapping_witness :
    _dbErrToError (some (GoErr.raw dupKeyMsg))
      = some (GoErr.kitE .dbIntegrityViolation (GoErr.raw dupKeyMsg))
    ∧ _chErrToError (some (GoErr.raw "connection refused"))
      = some (GoErr.kitE .chGeneric (GoErr.raw "connection refused")) :=
  ⟨c7_classifier_mapping.1 (GoErr.raw dupKeyMsg) (("23505").data) (by decide) (by decide),
   c7_classifier_mapping.2.2.2.2.2.1 (GoErr.raw "connection refused") (by decide)⟩

/-- C8: with a readable, clean schema state and no deadline expiry,
`Migrator.Apply(v)` from current version `c` rejects a dirty state with a
`Generic` error applying nothing, rejects `c > v` ("desired behind
current") with a `Generic` error applying nothing, succeeds applying
nothing when `c = v`, and when `c < v` succeeds applying exactly `v - c`
migrations, in ascending order `c+1, ..., v`. -/
theorem c8_migrator_apply :
    ∀ (env : MigEnv) (v : Int),
      env.deadlineFires = false → env.versionErr = none →
      ((env.dirty = true →
        Migrator.apply env v = ([], some (GoErr.kitE .migGeneric (GoErr.kitP .migGeneric))))
      ∧ (env.dirty = false → env.version > goUint64 v →
        Migrator.apply env v = ([], some (GoErr.kitE .migGeneric (GoErr.kitP .migGeneric))))
      ∧ (env.dirty = false → env.version = goUint64 v →
        Migrator.apply env v = ([], none))
      ∧ (env.dirty = false → env.version < goUint64 v →
        Migrator.apply env v
          = (List.range' (env.version + 1) (goUint64 v - env.version), none)
        ∧ (Migrator.apply env v).1.length = goUint64 v - env.version)) := by
  intro env v h1 h2
  refine ⟨?_, ?_, ?_, ?_⟩
  · intro hd
    simp [Migrator.apply, deadlineRun, h1, h2, hd, GoErr.hasKind]
  · intro hd hgt
    have hne : env.version ≠ goUint64 v := Nat.ne_of_gt hgt
    simp [Migrator.apply, deadlineRun, h1, h2, hd, hne, hgt, GoErr.hasKind]
  · intro hd heq
    simp [Migrator.apply, deadlineRun, h1, h2, hd, heq]
  · intro hd hlt
    have hne : env.version ≠ goUint64 v := Nat.ne_of_lt hlt
    have hngt : ¬ env.version > goUint64 v := Nat.not_lt.mpr (Nat.le_of_lt hlt)
    constructor
    · simp [Migrator.apply, deadlineRun, h1, h2, hd, hne, hngt]
    · simp [Migrator.apply, deadlineRun, h1, h2, hd, hne, hngt]

/-- C8 (witness): from version 3, `Apply(5)` applies exactly the two
migrations 4 and 5 in order; `Apply(2)` is rejected with a `Generic` error
and applies none; a dirty version 3 is rejected as well. -/
theorem c8_migrator_apply_witness :
    Migrator.apply cleanV3Env 5 = ([4, 5], none)
    ∧ Migrator.apply cleanV3Env 2
      = ([], some (GoErr.kitE .migGeneric (GoErr.kitP .migGeneric)))
    ∧ Migrator.apply dirtyV3Env 5
      = ([], some (GoErr.kitE .migGeneric (GoErr.kitP .migGeneric))) := by
  refine ⟨?_, ?_, ?_⟩
  · have h := ((c8_migrator_apply cleanV3Env 5 rfl rfl).2.2.2 rfl (by decide)).1
    simpa using h
  · exact (c8_migrator_apply cleanV3Env 2 rfl rfl).2.1 rfl (by decide)
  · exact (c8_migrator_apply dirtyV3Env 5 rfl rfl).1 rfl

/-- With a body that fails on every attempt, the retry policy performs the
attempts `n, n+1, ...` for the whole remaining budget and surfaces only
the final failure. -/
theorem retry_all_fail (errf : Nat → GoErr) :
    ∀ (k n : Nat),
      exponentialRetry [] (fun i => ([i], some (errf i))) n (k + 1)
        = (List.range' n (k + 1), some (errf (n + k))) := by
  intro k
  induction k with
  | zero =>
    intro n
    simp [exponentialRetry, List.range']
  | succ k ih =>
    intro n
    show exponentialRetry [] (fun i => ([i], some (errf i))) n (k + 2) = _
    rw [exponentialRetry]
    simp only [errIsRetriable, List.isEmpty_nil, Bool.true_or, if_true, ih (n + 1)]
    have h1 : List.range' n (k + 1 + 1) = n :: List.range' (n + 1) (k + 1) :=
      List.range'_succ n (k + 1) 1
    have h2 : n + 1 + k = n + (k + 1) := by omega
    simp [h1, h2]

/-- C9: with `Attempts = N ≥ 1`, a dial that fails on every attempt makes
the connection phase of `NewDatabase` (and the ping phase of `NewCache`)
perform exactly the attempts numbered 1 through N and return a classified
`Generic` error wrapping only the final attempt's failure; if the deadline
fires first the result is the `TimedOut` kind instead. -/
theorem c9_connect_retries :
    (∀ (k : Nat) (msgs : Nat → String) (pe : Nat → Option String),
      newDatabaseConnect
          { attempts := k + 1, dialErr := fun i => some (msgs i), pingErr := pe,
            deadlineFires := false }
        = (List.range' 1 (k + 1),
           some (GoErr.kitE .dbGeneric (GoErr.kitE .dbGeneric (GoErr.raw (msgs (k + 1)))))))
    ∧ (∀ (k : Nat) (msgs : Nat → String) (de : Nat → Option String),
      newCacheConnect
          { attempts := k + 1, dialErr := de, pingErr := fun i => some (msgs i),
            deadlineFires := false }
        = (List.range' 1 (k + 1),
           some (GoErr.kitE .chGeneric (GoErr.kitE .chGeneric (GoErr.raw (msgs (k + 1)))))))
    ∧ (∀ env : ConnEnv, env.deadlineFires = true →
      newDatabaseConnect env = ([], some (GoErr.kitP .dbTimedOut))
      ∧ newCacheConnect env = ([], some (GoErr.kitP .chTimedOut))) := by
  refine ⟨?_, ?_, ?_⟩
  · intro k msgs pe
    have hbody : databaseDialBody
        { attempts := k + 1, dialErr := fun i => some (msgs i), pingErr := pe,
          deadlineFires := false }
        = fun i => ([i], some (GoErr.kitE .dbGeneric (GoErr.raw (msgs i)))) := by
      funext i
      rfl
    have h2 : 1 + k = k + 1 := by omega
    simp only [newDatabaseConnect, Bool.false_eq_true, if_false, hbody,
      retry_all_fail _ k 1, h2]
  · intro k msgs de
    have hbody : cacheDialBody
        { attempts := k + 1, dialErr := de, pingErr := fun i => some (msgs i),
          deadlineFires := false }
        = fun i => ([i], some (GoErr.kitE .chGeneric (GoErr.raw (msgs i)))) := by
      funext i
      rfl
    have h2 : 1 + k = k + 1 := by omega
    simp only [newCacheConnect, Bool.false_eq_true, if_false, hbody,
      retry_all_fail _ k 1, h2]
  · intro env h
    constructor
    · simp [newDatabaseConnect, h]
    · simp [newCacheConnect, h]

/-- C9 (witness): three always-failing attempts dial 1, 2, 3 and surface
the final failure classified as `Generic`; a fired deadline yields
`TimedOut`. -/
theorem c9_connect_retries_witness :
    newDatabaseConnect
        { attempts := 3, dialErr := fun _ => some "connection refused",
          pingErr := fun _ => none, deadlineFires := false }
      = ([1, 2, 3],
         some (GoErr.kitE .dbGeneric
           (GoErr.kitE .dbGeneric (GoErr.raw "connection refused"))))
    ∧ newCacheConnect
        { attempts := 1, dialErr := fun _ => none,
          pingErr := fun _ => some "moved", deadlineFires := true }
      = ([], some (GoErr.kitP .chTimedOut)) := by
  constructor
  · have h := c9_connect_retries.1 2 (fun _ => "connection refused") (fun _ => none)
    simpa using h
  · exact (c9_connect_retries.2.2
      { attempts := 1, dialErr := fun _ => none,
        pingErr := fun _ => some "moved", deadlineFires := true } rfl).2

/-- C10 (counterexample): a nil ttl is stored as `Item.TTL = 0`, but under
the go-redis/cache v8 TTL normalization a zero TTL is replaced by the
library's default of one hour, so the item does expire — "no expiration"
is false. -/
theorem c10_ttl_counterexample :
    (Cache.set none none).1 = 0
    ∧ cacheItemEffectiveTTL (Cache.set none none).1 = goHour
    ∧ goHour ≠ 0 := by
  decide

/-- C10 (amended): `Cache.Set` treats a nil ttl exactly like an explicit
zero duration — never as an error (the call's error does not depend on the
ttl argument at all, only on the backend) — and the zero `Item.TTL` it
passes is mapped by the v8 cache library to its default expiry of one
hour, not to "no expiration". -/
theorem c10_ttl_amended :
    (∀ be : Option GoErr, Cache.set be none = Cache.set be (some 0))
    ∧ (∀ (be : Option GoErr) (t1 t2 : Option GoDuration),
        (Cache.set be t1).2 = (Cache.set be t2).2)
    ∧ Cache.set none none = (0, none)
    ∧ cacheItemEffectiveTTL 0 = goHour := by
  refine ⟨fun be => rfl, fun be t1 t2 => rfl, rfl, by decide⟩
